import Mathlib

/-!
Verification development for the `my_mcp_server` repository.

Shallow embedding of the Python sources under `src/`:
  * `src/utils/text.py`        — `summarize_sections`
  * `src/utils/youtube.py`     — `extract_video_id`, `_get_field`,
                                 `fetch_transcript_flexible`
  * `src/tools/commit_suggester.py` — type/scope inference, rule
                                 enforcement, subject truncation, custom and
                                 conventional rendering
  * `src/tools/summarize_youtube.py` — `max_summary_length` normalisation

Modelling conventions: Python strings are Lean `String`s (lengths agree:
both count Unicode code points); Python ints are `Int`/`Nat`; Python float
constants (only `0.4`/`0.2` scaling factors and subtitle time stamps) are
modelled as exact rationals; `None` becomes `Option`/an explicit variant;
the external transcript service is an explicit oracle argument; every
`try/except` is modelled by `Except`/`Option` with the handler applied.
Core `String` operations that appear in the sources (`replace`, `lower`,
`split`, `join`, `strip`) are re-implemented on `List Char` so that all
definitions evaluate by kernel reduction.
-/

/-! ## Python string primitives -/

/-- Characters treated as whitespace by Python `str.strip` / `\s` (ASCII part). -/
def py_ws (c : Char) : Bool :=
  c = ' ' || c = '\t' || c = '\n' || c = '\r' || c = '\x0b' || c = '\x0c'

/-- Python `str.strip()`: remove leading and trailing whitespace. -/
def py_strip (s : String) : String :=
  ⟨((s.data.dropWhile py_ws).reverse.dropWhile py_ws).reverse⟩

/-- Python `sep.join(parts)` (for a non-degenerate separator). -/
def py_join (sep : String) (parts : List String) : String :=
  match parts with
  | [] => ""
  | p :: rest => rest.foldl (fun acc q => acc ++ sep ++ q) p

/-- Python `str.lower()` on one character (ASCII range, as used on paths). -/
def py_lower_char (c : Char) : Char :=
  if 'A' ≤ c ∧ c ≤ 'Z' then Char.ofNat (c.toNat + 32) else c

/-- Python `str.lower()`. -/
def py_lower (s : String) : String := ⟨s.data.map py_lower_char⟩

/-- Python `str.split(sep)` for a one-character separator (the sources only
split on `"/"`). Pieces are kept even when empty, as in Python. -/
def py_split_char (sep : Char) : List Char → List (List Char)
  | [] => [[]]
  | c :: rest =>
    if c = sep then [] :: py_split_char sep rest
    else
      match py_split_char sep rest with
      | h :: t => (c :: h) :: t
      | [] => [[c]]

/-- One step of Python `str.replace(pat, rep)`: left-to-right, non-overlapping.
Structural recursion on a fuel bounded by the string length (each step
consumes at least one character). The sources only call `replace` with
non-empty patterns; on an empty pattern this model leaves the string
unchanged. -/
def py_replace_go (pat rep : List Char) : Nat → List Char → List Char
  | _, [] => []
  | 0, s => s
  | fuel + 1, c :: rest =>
    if pat ≠ [] ∧ (c :: rest).take pat.length = pat then
      rep ++ py_replace_go pat rep fuel ((c :: rest).drop pat.length)
    else
      c :: py_replace_go pat rep fuel rest

/-- Python `s.replace(pat, rep)`. -/
def py_replace (s pat rep : String) : String :=
  ⟨py_replace_go pat.data rep.data s.data.length s.data⟩

/-- Python `str(int)` for thousands-separated `f"{n:,}"` formatting:
walk the reversed digit list, inserting `,` after every third digit. -/
def comma_rev : List Char → Nat → List Char
  | [], _ => []
  | c :: rest, i =>
    c :: ((if (i + 1) % 3 = 0 && !rest.isEmpty then [','] else []) ++ comma_rev rest (i + 1))

/-- Python `f"{n:,}"` for an integer. -/
def py_thousands (n : Int) : String :=
  (if n < 0 then "-" else "") ++ ⟨(comma_rev (toString n.natAbs).data.reverse 0).reverse⟩

/-- Python truthiness of an optional string (`None` and `""` are falsy). -/
def py_truthy_str : Option String → Bool
  | none => false
  | some s => !(s = "")

/-! ## `src/utils/text.py` — `summarize_sections` -/

/-- Embedding of the sentence split `re.split` on the lookbehind-whitespace
pattern (dot/bang/question mark followed by whitespace): split at each
maximal whitespace run
that is immediately preceded by `.`, `!` or `?`.  The reversed accumulator
holds the current piece, so its head is the previous character; right after a
split the previous character is whitespace, for which the lookbehind fails,
matching the empty-accumulator case.  Fuel = number of characters left. -/
def sent_split_go (fuel : Nat) (s : List Char) (acc : List Char) : List (List Char) :=
  match fuel, s with
  | _, [] => [acc.reverse]
  | 0, rest => [acc.reverse ++ rest]
  | fuel + 1, c :: rest =>
    if py_ws c && (match acc with
                   | p :: _ => p = '.' || p = '!' || p = '?'
                   | [] => false) then
      acc.reverse :: sent_split_go fuel (rest.dropWhile py_ws) []
    else
      sent_split_go fuel rest (c :: acc)

/-- The sentence list used by `summarize_sections`. -/
def py_split_sentences (text : String) : List String :=
  (sent_split_go text.data.length text.data []).map fun l => (⟨l⟩ : String)

/-- The `start` loop of `summarize_sections`: append sentences (plus a space)
while the next sentence still fits strictly under the cap, stopping at the
first that does not (`break`). -/
def build_start (cap : Nat) : List String → String → String
  | [], acc => acc
  | s :: rest, acc =>
    if acc.length + s.length < cap then build_start cap rest (acc ++ s ++ " ") else acc

/-- The `mid` loop of `summarize_sections`: same fit test but without `break`
(sentences that do not fit are skipped and the loop continues). -/
def build_mid (cap : Nat) (chunk : List String) : String :=
  chunk.foldl (fun acc s => if acc.length + s.length < cap then acc ++ s ++ " " else acc) ""

/-- The `end` loop of `summarize_sections`: iterate the reversed sentence
list, prepending each fitting sentence, stopping at the first that does not. -/
def build_end (cap : Nat) : List String → String → String
  | [], acc => acc
  | s :: rest, acc =>
    if acc.length + s.length < cap then build_end cap rest (s ++ " " ++ acc) else acc

/-- The three extracted sections of `summarize_sections` together with the
`omitted` count, for text longer than the budget. -/
structure Sections where
  head : String
  middle : String
  tail : String
  omitted : Int

/-- The section extraction of `summarize_sections` (`src/utils/text.py`,
lines 36–65).  `int(max_length * 0.4)` and `int(max_length * 0.2)` are
modelled exactly as `max_length * 2 / 5` and `max_length / 5`. -/
def summarize_sections_parts (text : String) (max_length : Nat) : Sections :=
  let sentences := py_split_sentences text
  let start_cap := max_length * 2 / 5
  let start := build_start start_cap sentences ""
  let mid_cap := max_length / 5
  let mid_i := sentences.length / 2
  let lo := mid_i - 5
  let hi := min sentences.length (mid_i + 5)
  let mid := build_mid mid_cap ((sentences.drop lo).take (hi - lo))
  let end_cap := max_length * 2 / 5
  let tl := build_end end_cap sentences.reverse ""
  ⟨start, mid, tl, max 0 ((text.length : Int) - start.length - mid.length - tl.length)⟩

/-- Embedding of `summarize_sections` (`src/utils/text.py`). -/
def summarize_sections (text : String) (max_length : Nat) : String :=
  if text.length ≤ max_length then text
  else
    let p := summarize_sections_parts text max_length
    py_join "\n"
      ["**[시작 부분]**", py_strip p.head, "",
       "... *약 " ++ py_thousands p.omitted ++ "자 생략* ...", "",
       "**[중간 부분]**", py_strip p.middle, "", "... *생략* ...", "",
       "**[마지막 부분]**", py_strip p.tail]

/-! ### Length bounds for the three section loops -/

theorem build_start_length_le (cap : Nat) (l : List String) (acc : String)
    (h : acc.length ≤ cap) : (build_start cap l acc).length ≤ cap := by
  induction l generalizing acc with
  | nil => simpa [build_start] using h
  | cons s rest ih =>
    simp only [build_start]
    split
    · apply ih
      have hsp : (" " : String).length = 1 := rfl
      simp only [String.length_append, hsp]
      omega
    · exact h

theorem build_mid_length_le (cap : Nat) (chunk : List String) :
    (build_mid cap chunk).length ≤ cap := by
  have key : ∀ (l : List String) (acc : String), acc.length ≤ cap →
      (l.foldl (fun acc s =>
        if acc.length + s.length < cap then acc ++ s ++ " " else acc) acc).length ≤ cap := by
    intro l
    induction l with
    | nil => intro acc h; simpa using h
    | cons s rest ih =>
      intro acc h
      simp only [List.foldl_cons]
      split
      · apply ih
        have hsp : (" " : String).length = 1 := rfl
        simp only [String.length_append, hsp]
        omega
      · exact ih acc h
  exact key chunk "" (by simp)

theorem build_end_length_le (cap : Nat) (l : List String) (acc : String)
    (h : acc.length ≤ cap) : (build_end cap l acc).length ≤ cap := by
  induction l generalizing acc with
  | nil => simpa [build_end] using h
  | cons s rest ih =>
    simp only [build_end]
    split
    · apply ih
      have hsp : (" " : String).length = 1 := rfl
      simp only [String.length_append, hsp]
      omega
    · exact h

/-- C2: for every text strictly longer than the budget `max_length`, the
sectioning computation of `summarize_sections` yields `omitted ≥ 0`, and
`omitted + len(head) + len(middle) + len(tail)` does not exceed the length of
the original text. -/
theorem summarize_sections_omitted_bounds (text : String) (M : Nat)
    (h : M < text.length) :
    0 ≤ (summarize_sections_parts text M).omitted ∧
    (summarize_sections_parts text M).omitted
      + (((summarize_sections_parts text M).head.length
          + (summarize_sections_parts text M).middle.length
          + (summarize_sections_parts text M).tail.length : Nat) : Int)
      ≤ (text.length : Int) := by
  have eh : (summarize_sections_parts text M).head
      = build_start (M * 2 / 5) (py_split_sentences text) "" := rfl
  have em : (summarize_sections_parts text M).middle
      = build_mid (M / 5)
          (((py_split_sentences text).drop ((py_split_sentences text).length / 2 - 5)).take
            (min (py_split_sentences text).length ((py_split_sentences text).length / 2 + 5)
              - ((py_split_sentences text).length / 2 - 5))) := rfl
  have et : (summarize_sections_parts text M).tail
      = build_end (M * 2 / 5) (py_split_sentences text).reverse "" := rfl
  have eo : (summarize_sections_parts text M).omitted
      = max 0 ((text.length : Int)
          - (summarize_sections_parts text M).head.length
          - (summarize_sections_parts text M).middle.length
          - (summarize_sections_parts text M).tail.length) := rfl
  have h1 : (summarize_sections_parts text M).head.length ≤ M * 2 / 5 := by
    rw [eh]; exact build_start_length_le _ _ _ (by simp)
  have h2 : (summarize_sections_parts text M).middle.length ≤ M / 5 := by
    rw [em]; exact build_mid_length_le _ _
  have h3 : (summarize_sections_parts text M).tail.length ≤ M * 2 / 5 := by
    rw [et]; exact build_end_length_le _ _ _ (by simp)
  have hsum : (summarize_sections_parts text M).head.length
      + (summarize_sections_parts text M).middle.length
      + (summarize_sections_parts text M).tail.length ≤ M := by omega
  constructor
  · rw [eo]; exact le_max_left _ _
  · rw [eo, max_eq_right (by omega)]
    omega

/-- Witness for C2 at the concrete text `"ab. cd"` with budget 1. -/
theorem summarize_sections_omitted_bounds_witness :
    1 < ("ab. cd" : String).length ∧
    (0 ≤ (summarize_sections_parts "ab. cd" 1).omitted ∧
     (summarize_sections_parts "ab. cd" 1).omitted
       + (((summarize_sections_parts "ab. cd" 1).head.length
           + (summarize_sections_parts "ab. cd" 1).middle.length
           + (summarize_sections_parts "ab. cd" 1).tail.length : Nat) : Int)
       ≤ (("ab. cd" : String).length : Int)) :=
  ⟨by decide, summarize_sections_omitted_bounds "ab. cd" 1 (by decide)⟩

/-! ## `src/utils/youtube.py` — `extract_video_id` -/

/-- The character class `[0-9A-Za-z_-]` of the video-ID patterns. -/
def id_char (c : Char) : Bool :=
  ('0' ≤ c && c ≤ '9') || ('A' ≤ c && c ≤ 'Z') || ('a' ≤ c && c ≤ 'z') || c = '_' || c = '-'

/-- Capture group `([0-9A-Za-z_-]{11})`: exactly 11 class characters. -/
def grab11 (s : List Char) : Option String :=
  let t := s.take 11
  if t.length = 11 && t.all id_char then some ⟨t⟩ else none

/-- First pattern `(?:v=|/)([0-9A-Za-z_-]{11}).*` tried at one position:
the alternation tries `v=`, then `/` (their first characters differ, so the
two branches are disjoint); the trailing `.*` always matches. -/
def match_vslash_at (s : List Char) : Option String :=
  if s.take 2 = ['v', '='] then grab11 (s.drop 2)
  else if s.take 1 = ['/'] then grab11 (s.drop 1)
  else none

/-- Second pattern `(?:embed/)([0-9A-Za-z_-]{11})` at one position. -/
def match_embed_at (s : List Char) : Option String :=
  if s.take 6 = "embed/".data then grab11 (s.drop 6) else none

/-- Third pattern at one position.  The source writes `(?:youtu\\.be/)`, in
which `\\` matches a literal backslash and `.` any character except newline,
so the pattern expects `youtu`, a backslash, any character, then `be/`. -/
def match_short_at (s : List Char) : Option String :=
  if s.take 5 = "youtu".data then
    match s.drop 5 with
    | b :: c :: rest =>
      if b = '\\' && c ≠ '\n' && rest.take 3 = ['b', 'e', '/'] then grab11 (rest.drop 3)
      else none
    | _ => none
  else none

/-- Embedding of `re.search`: try the position matcher at each position from the left and
return the first capture. -/
def search_at_each (f : List Char → Option String) : List Char → Option String
  | [] => f []
  | c :: rest =>
    match f (c :: rest) with
    | some r => some r
    | none => search_at_each f rest

/-- Embedding of `extract_video_id` (`src/utils/youtube.py`, lines 16–51): try the three
patterns in order, returning the first captured token. -/
def extract_video_id (url : String) : Option String :=
  match search_at_each match_vslash_at url.data with
  | some r => some r
  | none =>
    match search_at_each match_embed_at url.data with
    | some r => some r
    | none => search_at_each match_short_at url.data

/-! ## `src/utils/youtube.py` — transcript entries and `_get_field` -/

/-- A Python value as it can occur in a transcript entry field or as a
caller-supplied default: a string, a number, `None`, or a zero-argument
callable that either returns a value (`vfn (some v)`) or raises
(`vfn none`). -/
inductive Value where
  | vstr (s : String)
  | vnum (q : Rat)
  | vnone
  | vfn (r : Option Value)

/-- A transcript entry: either a mapping-shaped record (`dict`) or an
attribute-bearing object. -/
inductive Entry where
  | dict (kvs : List (String × Value))
  | obj (attrs : List (String × Value))

/-- Key lookup, first match wins (Python `dict` keys are unique, so this
matches `dict.get`/`getattr`). -/
def assoc_lookup (kvs : List (String × Value)) (name : String) : Option Value :=
  match kvs with
  | [] => none
  | (k, v) :: rest => if k = name then some v else assoc_lookup rest name

/-- Embedding of the field accessor (`src/utils/youtube.py`, lines 53–88): `dict.get` for
mappings; `getattr` with default otherwise, where a callable result is
invoked (returning the default if the invocation raises).  Note that the
callable check applies to whatever `getattr` returned — including the
default itself when the attribute is absent. -/
def get_field (entry : Entry) (name : String) (default : Value) : Value :=
  match entry with
  | .dict kvs => (assoc_lookup kvs name).getD default
  | .obj attrs =>
    let val := (assoc_lookup attrs name).getD default
    match val with
    | .vfn (some v) => v
    | .vfn none => default
    | v => v

/-- Python truthiness of a `Value` (`x or y` falls through on falsy `x`). -/
def py_truthy_val : Value → Bool
  | .vstr s => !(s = "")
  | .vnum q => !(q = 0)
  | .vnone => false
  | .vfn _ => true

/-- Python `x or y`. -/
def value_or (v fallback : Value) : Value := if py_truthy_val v then v else fallback

/-- Python `str(...)` on a `Value`.  Only the string case is ever exercised
by the transcripts; the numeric display is a loose model. -/
def py_str_of : Value → String
  | .vstr s => s
  | .vnum q => toString q
  | .vnone => "None"
  | .vfn _ => "<callable>"

/-- Digit run to a natural number. -/
def digits_to_nat (l : List Char) : Nat := l.foldl (fun a c => a * 10 + (c.toNat - 48)) 0

/-- Python `float(str)` on plain decimal forms (`[+-]digits[.digits]`);
scientific notation and `inf`/`nan` are not modelled (never produced by the
transcript service).  `none` models a raised `ValueError`. -/
def py_float_of_string (s : String) : Option Rat :=
  match (py_strip s).data with
  | l =>
    let sgn : Rat := match l with
      | '-' :: _ => -1
      | _ => 1
    let l2 := match l with
      | '-' :: r => r
      | '+' :: r => r
      | r => r
    let ip := l2.takeWhile Char.isDigit
    let rest := l2.dropWhile Char.isDigit
    match rest with
    | [] => if ip.isEmpty then none else some (sgn * (digits_to_nat ip : Rat))
    | '.' :: frac =>
      if frac.all Char.isDigit && !(ip.isEmpty && frac.isEmpty) then
        some (sgn * ((digits_to_nat ip : Rat)
          + (digits_to_nat frac : Rat) / ((10 : Rat) ^ frac.length)))
      else none
    | _ => none

/-- Python `float(x)` on a `Value`; `none` models a raised exception. -/
def py_float_of : Value → Option Rat
  | .vnum q => some q
  | .vstr s => py_float_of_string s
  | .vnone => none
  | .vfn _ => none

/-- The inner `_calc` of `fetch_transcript_flexible`: join all entry texts
with spaces and derive the duration label from the last entry
(`start + duration`, floor-divided into minutes and seconds). -/
def calc_totals (full : List Entry) : String × String :=
  let texts := full.map fun e => py_str_of (value_or (get_field e "text" (.vstr "")) (.vstr ""))
  let full_text := py_join " " texts
  match full.getLast? with
  | some last =>
    let start := value_or (get_field last "start" (.vnum 0)) (.vnum 0)
    let dur := value_or (get_field last "duration" (.vnum 0)) (.vnum 0)
    let s : Rat := (py_float_of start).getD 0
    let d : Rat := (py_float_of dur).getD 0
    let total := s + d
    (toString (total / 60).floor ++ "분 "
       ++ toString (total - 60 * (total / 60).floor).floor ++ "초", full_text)
  | none => ("알 수 없음", full_text)

/-! ## `src/utils/youtube.py` — `fetch_transcript_flexible` -/

/-- A query to the external transcript service: `some langs` models
`YouTubeTranscriptApi().fetch(video_id, languages=langs)`, `none` models the
plain `fetch(video_id)` fallback.  The service itself is an oracle
argument: `Except.error` models a raised exception. -/
abbrev FetchQuery := Option (List String)

/-- The tuple returned by `fetch_transcript_flexible`. -/
structure FetchResult where
  entries : List Entry
  language_used : Option String
  duration : String
  full_text : String

/-- Python falsiness of the fetched transcript data (`None` or empty). -/
def td_falsy : Option (List Entry) → Bool
  | none => true
  | some d => d.isEmpty

/-- The language candidates tried when no language is specified. -/
def language_candidates : List (List String × String) :=
  [(["ko"], "한국어"), (["ko-auto"], "한국어 (자동 생성)"), (["en"], "영어"),
   (["en-US", "en-GB"], "영어"), (["ja"], "일본어"), (["ja-auto"], "일본어 (자동 생성)")]

/-- The candidate loop: first successful fetch wins (`break`); failures are
swallowed and the next candidate is tried. -/
def try_candidates (oracle : FetchQuery → Except Unit (List Entry)) :
    List (List String × String) → Option (List Entry) × Option String
  | [] => (none, none)
  | (langs, nm) :: rest =>
    match oracle (some langs) with
    | .ok d => (some d, some nm)
    | .error _ => try_candidates oracle rest

/-- The common tail of `fetch_transcript_flexible` (line 202 onward): empty
or missing data yields the empty result with the `"알 수 없음"` duration
label, otherwise `_calc` is applied. -/
def fetch_finish (td : Option (List Entry)) (lu : Option String) : FetchResult :=
  if td_falsy td then ⟨[], lu, "알 수 없음", ""⟩
  else
    match td with
    | some d =>
      let r := calc_totals d
      ⟨d, lu, r.1, r.2⟩
    | none => ⟨[], lu, "알 수 없음", ""⟩

/-- Embedding of `fetch_transcript_flexible` (`src/utils/youtube.py`, lines 90–212),
as a pure function of the service oracle.  The outer `try/except` catches
the explicit `raise` in the default-language fallback and returns the empty
result with the `language_used` current at that point; all other failure
paths flow into `fetch_finish`.  The function is total: no exception
escapes to the caller. -/
def fetch_transcript_flexible (oracle : FetchQuery → Except Unit (List Entry))
    (language : Option String) : FetchResult :=
  match language with
  | some l =>
    match oracle (some [l]) with
    | .ok d => fetch_finish (some d) (some l)
    | .error _ =>
      match oracle (some [l ++ "-auto", l]) with
      | .ok d => fetch_finish (some d) (some (l ++ " (자동 생성)"))
      | .error _ => fetch_finish none none
  | none =>
    match try_candidates oracle language_candidates with
    | (td, lu) =>
      if td_falsy td then
        match oracle none with
        | .ok d => fetch_finish (some d) (some "기본 언어")
        | .error _ => ⟨[], lu, "알 수 없음", ""⟩
      else fetch_finish td lu

/-- C5: for every behavior of the external transcript service and every
optional language argument, if every service call raises then
`fetch_transcript_flexible` (which never raises to its caller — it is a
total function of the oracle) returns the empty entry list, the last
attempted language label (`none`, since a label is only recorded on a
successful fetch), the `"알 수 없음"` (unknown) duration label, and empty
full text. -/
theorem fetch_transcript_flexible_total_failure
    (oracle : FetchQuery → Except Unit (List Entry))
    (hfail : ∀ q, oracle q = Except.error ()) (language : Option String) :
    fetch_transcript_flexible oracle language = ⟨[], none, "알 수 없음", ""⟩ := by
  cases language with
  | some l =>
    simp [fetch_transcript_flexible, hfail, fetch_finish, td_falsy]
  | none =>
    simp [fetch_transcript_flexible, try_candidates, language_candidates, hfail,
      fetch_finish, td_falsy]

/-- Witness for C5: the always-raising oracle with no language requested. -/
theorem fetch_transcript_flexible_total_failure_witness :
    fetch_transcript_flexible (fun _ => Except.error ()) none
      = ⟨[], none, "알 수 없음", ""⟩ :=
  fetch_transcript_flexible_total_failure (fun _ => Except.error ()) (fun _ => rfl) none

/-- C7: the three video-ID extraction examples. -/
theorem extract_video_id_examples :
    extract_video_id "https://www.youtube.com/watch?v=dQw4w9WgXcQ" = some "dQw4w9WgXcQ" ∧
    extract_video_id "https://youtu.be/dQw4w9WgXcQ" = some "dQw4w9WgXcQ" ∧
    extract_video_id "not a url" = none := by
  refine ⟨?_, ?_, ?_⟩ <;> decide

/-- C9, counterexample to the claim as stated: for an attribute-bearing
entry with the field absent and a callable caller-supplied default, the
accessor does not return the supplied default — `getattr` hands back the
default, the `callable` check fires on it, and its invocation result is
returned instead. -/
theorem get_field_callable_default_not_returned :
    get_field (Entry.obj []) "x" (Value.vfn (some (Value.vstr "y"))) = Value.vstr "y" ∧
    get_field (Entry.obj []) "x" (Value.vfn (some (Value.vstr "y")))
      ≠ Value.vfn (some (Value.vstr "y")) := by
  refine ⟨rfl, ?_⟩
  intro h
  exact Value.noConfusion h

/-- C9 (amended): the field accessor never raises (it is total); it returns
the mapping value, the attribute value, or the result of invoking a
zero-argument accessor, and it returns the supplied default whenever the
field is absent or the accessor invocation fails — except that for an
attribute-shaped entry with the field absent and a callable default, the
default itself is invoked: its result is returned on success, and the
default itself on failure. -/
theorem get_field_amended (name : String) (d : Value) :
    (∀ kvs v, assoc_lookup kvs name = some v → get_field (.dict kvs) name d = v) ∧
    (∀ kvs, assoc_lookup kvs name = none → get_field (.dict kvs) name d = d) ∧
    (∀ attrs v, assoc_lookup attrs name = some v → (∀ r, v ≠ .vfn r) →
        get_field (.obj attrs) name d = v) ∧
    (∀ attrs v, assoc_lookup attrs name = some (.vfn (some v)) →
        get_field (.obj attrs) name d = v) ∧
    (∀ attrs, assoc_lookup attrs name = some (.vfn none) →
        get_field (.obj attrs) name d = d) ∧
    (∀ attrs, assoc_lookup attrs name = none → (∀ r, d ≠ .vfn r) →
        get_field (.obj attrs) name d = d) ∧
    (∀ attrs v, assoc_lookup attrs name = none → d = .vfn (some v) →
        get_field (.obj attrs) name d = v) ∧
    (∀ attrs, assoc_lookup attrs name = none → d = .vfn none →
        get_field (.obj attrs) name d = d) := by
  refine ⟨?_, ?_, ?_, ?_, ?_, ?_, ?_, ?_⟩
  · intro kvs v hl; simp [get_field, hl]
  · intro kvs hl; simp [get_field, hl]
  · intro attrs v hl hnf
    simp only [get_field, hl, Option.getD_some]
    cases v with
    | vfn r => exact absurd rfl (hnf r)
    | vstr s => rfl
    | vnum q => rfl
    | vnone => rfl
  · intro attrs v hl; simp [get_field, hl]
  · intro attrs hl; simp [get_field, hl]
  · intro attrs hl hnf
    simp only [get_field, hl, Option.getD_none]
    cases d with
    | vfn r => exact absurd rfl (hnf r)
    | vstr s => rfl
    | vnum q => rfl
    | vnone => rfl
  · intro attrs v hl hd; subst hd; simp [get_field, hl]
  · intro attrs hl hd; subst hd; simp [get_field, hl]

/-- Witness for C9 (amended): a failing accessor invocation falls back to
the supplied default. -/
theorem get_field_amended_witness :
    get_field (Entry.obj [("text", Value.vfn none)]) "text" (Value.vstr "z")
      = Value.vstr "z" :=
  (get_field_amended "text" (Value.vstr "z")).2.2.2.2.1 [("text", Value.vfn none)] rfl

/-! ## `src/tools/commit_suggester.py` — data model -/

/-- The `CommitContext` dataclass. -/
structure CommitContext where
  type : String
  scope : Option String
  subject : String
  body : List String
  emoji : String
  branch : Option String
  stats : List (String × Nat)
  files_changed : Nat
  files_added : Nat
  files_modified : Nat
  files_deleted : Nat

/-! ## `src/tools/commit_suggester.py` — type/scope inference

The six `re.search` calls of `_infer_type_and_scope` use patterns that are
alternations of fixed-length atoms (literals, `.`, one character class, an
optional `$` anchor), embedded here as a tiny matcher.  Note that the source
file doubles its backslashes: in the raw strings, `\\.` denotes a literal
backslash followed by `.` (any character except newline), and the paths are
joined with the two-character separator `\n` (backslash, `n`), not with a
newline. -/

/-- One fixed-width regex atom. -/
inductive Tok where
  | lit (c : Char)
  | anyc
  | cls (cs : List Char)

/-- One alternative of an alternation pattern, with an optional `$` anchor. -/
structure ReAlt where
  toks : List Tok
  anchored : Bool

def tok_matches : Tok → Char → Bool
  | .lit a, c => a = c
  | .anyc, c => !(c = '\n')
  | .cls cs, c => cs.contains c

/-- Match a fixed-width atom sequence at the start of `s`, returning the
remaining characters. -/
def seq_match : List Tok → List Char → Option (List Char)
  | [], rest => some rest
  | _ :: _, [] => none
  | t :: ts, c :: rest => if tok_matches t c then seq_match ts rest else none

/-- Does the alternative match at this position?  A `$` anchor accepts the
end of the string or a single trailing newline, as in Python `re` without
`MULTILINE`. -/
def alt_match_at (a : ReAlt) (s : List Char) : Bool :=
  match seq_match a.toks s with
  | some rest => !a.anchored || rest.isEmpty || rest = ['\n']
  | none => false

/-- Scan all positions from the left for a match of the alternative. -/
def alt_search (a : ReAlt) : List Char → Bool
  | [] => alt_match_at a []
  | c :: rest => alt_match_at a (c :: rest) || alt_search a rest

/-- Embedding of `re.search(pattern, s) is not None` for an alternation pattern. -/
def re_search (alts : List ReAlt) (s : String) : Bool :=
  alts.any fun a => alt_search a s.data

/-- A run of literal atoms. -/
def lit_toks (s : String) : List Tok := s.data.map Tok.lit

/-- Pattern `(fix|bug|error|exception|hotfix)`. -/
def fix_alts : List ReAlt :=
  [⟨lit_toks "fix", false⟩, ⟨lit_toks "bug", false⟩, ⟨lit_toks "error", false⟩,
   ⟨lit_toks "exception", false⟩, ⟨lit_toks "hotfix", false⟩]

/-- Pattern `(doc|readme|mkdocs|docs/|\\.md$)` — `\\` is a literal backslash, `.`
any character, `$` the end anchor. -/
def docs_alts : List ReAlt :=
  [⟨lit_toks "doc", false⟩, ⟨lit_toks "readme", false⟩, ⟨lit_toks "mkdocs", false⟩,
   ⟨lit_toks "docs/", false⟩, ⟨[Tok.lit '\\', Tok.anyc] ++ lit_toks "md", true⟩]

/-- Pattern `(test|spec|pytest|jest|\\.test\\.|__tests__|\\.spec\\.)`. -/
def test_alts : List ReAlt :=
  [⟨lit_toks "test", false⟩, ⟨lit_toks "spec", false⟩, ⟨lit_toks "pytest", false⟩,
   ⟨lit_toks "jest", false⟩,
   ⟨[Tok.lit '\\', Tok.anyc] ++ lit_toks "test" ++ [Tok.lit '\\', Tok.anyc], false⟩,
   ⟨lit_toks "__tests__", false⟩,
   ⟨[Tok.lit '\\', Tok.anyc] ++ lit_toks "spec" ++ [Tok.lit '\\', Tok.anyc], false⟩]

/-- Pattern `(build|dockerfile|docker-compose|\\.lock$|package\\.json|requirements\\.txt)`. -/
def build_alts : List ReAlt :=
  [⟨lit_toks "build", false⟩, ⟨lit_toks "dockerfile", false⟩,
   ⟨lit_toks "docker-compose", false⟩,
   ⟨[Tok.lit '\\', Tok.anyc] ++ lit_toks "lock", true⟩,
   ⟨lit_toks "package" ++ [Tok.lit '\\', Tok.anyc] ++ lit_toks "json", false⟩,
   ⟨lit_toks "requirements" ++ [Tok.lit '\\', Tok.anyc] ++ lit_toks "txt", false⟩]

/-- Pattern `(refactor|rename|cleanup|restructure)`. -/
def refactor_alts : List ReAlt :=
  [⟨lit_toks "refactor", false⟩, ⟨lit_toks "rename", false⟩, ⟨lit_toks "cleanup", false⟩,
   ⟨lit_toks "restructure", false⟩]

/-- Pattern `(perf|benchmark|optimi[s|z]e)` — the class is the three characters
`s`, `|`, `z`. -/
def perf_alts : List ReAlt :=
  [⟨lit_toks "perf", false⟩, ⟨lit_toks "benchmark", false⟩,
   ⟨lit_toks "optimi" ++ [Tok.cls ['s', '|', 'z']] ++ lit_toks "e", false⟩]

/-- The scope loop of `_infer_type_and_scope`: first path with a `/` whose
top-level directory is neither `.` nor `..`. -/
def find_scope : List String → Option String
  | [] => none
  | p :: rest =>
    match py_split_char '/' p.data with
    | a :: _ :: _ =>
      if (⟨a⟩ : String) ≠ "." ∧ (⟨a⟩ : String) ≠ ".." then some (⟨a⟩ : String)
      else find_scope rest
    | _ => find_scope rest

/-- Embedding of the type/scope inference (`src/tools/commit_suggester.py`, lines 483–550):
keyword tests on the lowercased concatenation of all changed paths, in the
fixed priority order fix, docs, test, build, refactor, perf, with `feat` as
the default; scope is the first usable top-level directory. -/
def infer_type_and_scope (changed : List (String × String)) : String × Option String :=
  match changed with
  | [] => ("chore", none)
  | _ :: _ =>
    let paths := changed.map Prod.snd
    let lower_blob := py_lower (py_join "\\n" paths)
    let ctype :=
      if re_search fix_alts lower_blob then "fix"
      else if re_search docs_alts lower_blob then "docs"
      else if re_search test_alts lower_blob then "test"
      else if re_search build_alts lower_blob then "build"
      else if re_search refactor_alts lower_blob then "refactor"
      else if re_search perf_alts lower_blob then "perf"
      else "feat"
    (ctype, find_scope paths)

/-! ## `src/tools/commit_suggester.py` — rules, truncation, rendering -/

/-- The default allowed commit types (`rules.get("types") or [...]`). -/
def default_types : List String :=
  ["feat", "fix", "docs", "refactor", "test", "chore", "build", "perf", "ci"]

/-- Resolution `rules.get("types") or default`: a missing or empty user list falls back
to the default, so the allowed-type list is never empty. -/
def resolve_allowed_types (user : Option (List String)) : List String :=
  match user with
  | some l => if l.isEmpty then default_types else l
  | none => default_types

/-- Membership of the optional scope in the scope enumeration
(`scope_guess not in scope_enum`; `None` is never a member of a string
list). -/
def opt_scope_mem (scope : Option String) (enum : List String) : Bool :=
  match scope with
  | some s => enum.contains s
  | none => false

/-- The rule-enforcement step of `handle`
(`src/tools/commit_suggester.py`, lines 970–979): clear a scope that is not
in a configured non-empty enumeration; default a required missing scope to
`"core"`; clamp a disallowed type to `"feat"` if allowed, else to the first
allowed type (`allowed_types[0]`; callers always pass the non-empty
`resolve_allowed_types` result, so `headD` never takes its fallback). -/
def apply_rules (scope_enum : Option (List String)) (require_scope : Bool)
    (allowed_types : List String) (ctype : String) (scope_guess : Option String) :
    String × Option String :=
  let sg1 := match scope_enum with
    | some enum =>
      if !enum.isEmpty && !(opt_scope_mem scope_guess enum) then none else scope_guess
    | none => scope_guess
  let sg2 := if require_scope && !(py_truthy_str sg1) then some "core" else sg1
  let ct2 :=
    if allowed_types.contains ctype then ctype
    else if allowed_types.contains "feat" then "feat"
    else allowed_types.headD ""
  (ct2, sg2)

/-- Embedding of the subject truncation (`src/tools/commit_suggester.py`, lines 630–652):
strip, return unchanged if within the limit, else keep the first
`max(0, max_len - 1)` characters and append the one-character ellipsis. -/
def truncate_subject (text : String) (max_len : Nat) : String :=
  let t := py_strip text
  if t.length ≤ max_len then t
  else (⟨t.data.take (max_len - 1)⟩ : String) ++ "…"

/-- The replacement table of `_apply_custom_format`, in Python dict
insertion order.  `context.scope or ""` and `context.branch or ""` turn
`None` into the empty string; the body is joined with the two-character
separator backslash-`n` exactly as in the source (`"\\n".join`). -/
def format_replacements (ctx : CommitContext) : List (String × String) :=
  [("type", ctx.type),
   ("scope", match ctx.scope with | some s => s | none => ""),
   ("subject", ctx.subject),
   ("emoji", ctx.emoji),
   ("branch", match ctx.branch with | some s => s | none => ""),
   ("files_changed", toString ctx.files_changed),
   ("files_added", toString ctx.files_added),
   ("files_modified", toString ctx.files_modified),
   ("files_deleted", toString ctx.files_deleted),
   ("body", if ctx.body.isEmpty then "" else py_join "\\n" ctx.body),
   ("scope_with_parens",
     if py_truthy_str ctx.scope then
       "(" ++ (match ctx.scope with | some s => s | none => "") ++ ")"
     else "")]

/-- Embedding of the custom-template renderer (`src/tools/commit_suggester.py`, lines 655–711):
replace every `\x7bkey\x7d` placeholder of the fixed table in order, then
apply the escape step of line 709, which — with the doubled backslashes of
the source — replaces the three-character sequence backslash backslash `n`
by backslash `n` (and likewise for `t`); it never produces an actual newline
or tab character. -/
def apply_custom_format (format_template : String) (ctx : CommitContext) : String :=
  let result := (format_replacements ctx).foldl
    (fun acc kv => py_replace acc ("\x7b" ++ kv.1 ++ "\x7d") kv.2) format_template
  py_replace (py_replace result "\\\\n" "\\n") "\\\\t" "\\t"

/-- Embedding of the conventional renderer (`src/tools/commit_suggester.py`, lines
714–767): header `type(scope): subject`, optional body and BREAKING CHANGE
footer each preceded by an empty line; the parts are joined with the
two-character separator backslash-`n`, exactly as the source writes
`"\\n".join(parts)`. -/
def format_conventional_message (ctx : CommitContext) (breaking : Bool) (lang : String) :
    String :=
  let scope_part :=
    if py_truthy_str ctx.scope then
      "(" ++ (match ctx.scope with | some s => s | none => "") ++ ")"
    else ""
  let head := ctx.type ++ scope_part ++ ": " ++ ctx.subject
  let parts := [head]
    ++ (if !ctx.body.isEmpty then [""] ++ ctx.body else [])
    ++ (if breaking then
          ["", if lang = "ko" then "BREAKING CHANGE: 하위 호환되지 않는 변경"
               else "BREAKING CHANGE: behavior changed in a backward-incompatible way"]
        else [])
  py_join "\\n" parts

/-- The context used for the concrete rendering claims: type `feat`, scope
`core`, subject `add x`, no body. -/
def sample_context : CommitContext :=
  ⟨"feat", some "core", "add x", [], "✨", none, [], 0, 0, 0, 0⟩

/-! ## `src/tools/summarize_youtube.py` — `max_summary_length` -/

/-- One JSON argument value as the `handle` input dictionary can carry it:
`jint` covers Python `int` (and `bool`, which passes `isinstance(_, int)`),
`jother` any non-integer value. -/
inductive JsonArg where
  | jint (n : Int)
  | jother

/-- The normalisation of `max_summary_length` in `summarize_youtube.handle`
(`src/tools/summarize_youtube.py`, lines 98–106): non-integers and missing
values become 1000, then the result is clamped into [200, 5000]. -/
def effective_max_len (arg : Option JsonArg) : Int :=
  let m := match arg with
    | some (.jint n) => n
    | _ => 1000
  let m2 := if m < 200 then 200 else m
  if m2 > 5000 then 5000 else m2

/-- C6: commit type/scope inference on the three claimed change lists, plus
a priority check (a path containing both a fix keyword and docs markers is
classified `fix`, the first pattern in the priority order). -/
theorem infer_type_and_scope_examples :
    infer_type_and_scope [("M", "README.md")] = ("docs", none) ∧
    infer_type_and_scope [("A", "src/app/main.py")] = ("feat", some "src") ∧
    infer_type_and_scope [("M", "tests/test_x.py")] = ("test", some "tests") ∧
    infer_type_and_scope [("M", "docs/fix_typo.md")] = ("fix", some "docs") := by
  refine ⟨?_, ?_, ?_, ?_⟩ <;> decide

/-- C3: rendering the built-in conventional mode for the context with type
`feat`, scope `core`, subject `add x`, no body and breaking unset yields the
header `feat(core): add x`, and rendering the custom template
`{type}({scope}): {subject}` on the same context yields the identical
string. -/
theorem render_round_trip :
    format_conventional_message sample_context false "ko" = "feat(core): add x" ∧
    apply_custom_format "{type}({scope}): {subject}" sample_context
      = "feat(core): add x" := by
  exact ⟨by decide, by decide⟩

/-- C1: the substitution part of custom-template rendering behaves as
claimed (placeholders of the fixed set are replaced, unrecognized ones are
left untouched), but the escape step never produces an actual newline: a
template containing the escaped-newline marker backslash-`n` is returned
with the marker intact (no newline character anywhere), and a doubled
marker merely loses one backslash. -/
theorem apply_custom_format_escape_divergence :
    apply_custom_format "{type}: {subject}" sample_context = "feat: add x" ∧
    apply_custom_format "{unknown} {type}" sample_context = "{unknown} feat" ∧
    apply_custom_format "a\\nb" sample_context = "a\\nb" ∧
    apply_custom_format "a\\\\nb" sample_context = "a\\nb" ∧
    '\n' ∉ (apply_custom_format "a\\nb" sample_context).data ∧
    '\n' ∉ (apply_custom_format "a\\\\nb" sample_context).data := by
  refine ⟨by decide, by decide, by decide, by decide, by decide, by decide⟩

/-- C4: rule enforcement.  With a non-empty scope enumeration configured and
the current scope not a member, the final scope is `none`, or `core` when a
scope is required; a type outside the allowed list is clamped to `feat` when
allowed, else to the first allowed type; with allowed types
`["fix", "docs"]` and inferred type `feat`, the final type is `fix`. -/
theorem apply_rules_spec :
    (∀ enum require_scope types ctype scope, enum ≠ [] →
        (∀ s, scope = some s → s ∉ enum) →
        (apply_rules (some enum) require_scope (resolve_allowed_types types)
            ctype scope).2
          = (if require_scope then some "core" else none)) ∧
    (∀ scope_enum require_scope types ctype scope,
        ctype ∉ resolve_allowed_types types →
        (apply_rules scope_enum require_scope (resolve_allowed_types types)
            ctype scope).1
          = (if "feat" ∈ resolve_allowed_types types then "feat"
             else (resolve_allowed_types types).headD "")) ∧
    (apply_rules none false (resolve_allowed_types (some ["fix", "docs"]))
        "feat" none).1 = "fix" := by
  refine ⟨?_, ?_, by decide⟩
  · intro enum require_scope types ctype scope hne hnotmem
    have hmem : opt_scope_mem scope enum = false := by
      cases scope with
      | none => rfl
      | some s =>
        have : s ∉ enum := hnotmem s rfl
        simpa [opt_scope_mem] using this
    have hempty : enum.isEmpty = false := by
      cases enum with
      | nil => exact absurd rfl hne
      | cons a l => rfl
    simp only [apply_rules, hmem, hempty, Bool.not_false, Bool.and_self,
      if_pos, py_truthy_str]
    cases require_scope <;> rfl
  · intro scope_enum require_scope types ctype scope hnot
    have hc : (resolve_allowed_types types).contains ctype = false := by
      simpa using hnot
    have e1 : (apply_rules scope_enum require_scope (resolve_allowed_types types)
          ctype scope).1
        = if (resolve_allowed_types types).contains ctype then ctype
          else if (resolve_allowed_types types).contains "feat" then "feat"
          else (resolve_allowed_types types).headD "" := rfl
    rw [e1, hc]
    by_cases hfeat : "feat" ∈ resolve_allowed_types types
    · have hf : (resolve_allowed_types types).contains "feat" = true := by
        simpa using hfeat
      rw [hf]
      simp [hfeat]
    · have hf : (resolve_allowed_types types).contains "feat" = false := by
        simpa using hfeat
      rw [hf]
      simp [hfeat]

/-- Witness for C4: scope `web` cleared against the enumeration `["api"]`
and defaulted to `core` since a scope is required. -/
theorem apply_rules_spec_witness :
    (apply_rules (some ["api"]) true (resolve_allowed_types none) "feat"
        (some "web")).2 = some "core" := by
  have h := apply_rules_spec.1 ["api"] true none "feat" (some "web")
    (by decide) (fun s hs => by cases hs; decide)
  simpa using h

/-- C8: after stripping (a no-op on subjects without surrounding
whitespace), a subject longer than `subject_max ≥ 1` is truncated to its
first `subject_max - 1` characters plus the one-character ellipsis marker,
for a total length of exactly `subject_max`; a subject within the limit is
returned unchanged. -/
theorem truncate_subject_spec (text : String) (max_len : Nat)
    (hstrip : py_strip text = text) (hpos : 1 ≤ max_len) :
    (max_len < text.length →
      truncate_subject text max_len
        = (⟨text.data.take (max_len - 1)⟩ : String) ++ "…" ∧
      (truncate_subject text max_len).length = max_len) ∧
    (text.length ≤ max_len → truncate_subject text max_len = text) := by
  constructor
  · intro hlong
    have hnot : ¬ text.length ≤ max_len := by omega
    have heq : truncate_subject text max_len
        = (⟨text.data.take (max_len - 1)⟩ : String) ++ "…" := by
      simp only [truncate_subject, hstrip]
      rw [if_neg hnot]
    refine ⟨heq, ?_⟩
    rw [heq]
    have hell : ("…" : String).length = 1 := rfl
    have hdata : text.data.length = text.length := rfl
    simp only [String.length_append, hell]
    have : ((text.data.take (max_len - 1) : List Char)).length
        = min (max_len - 1) text.data.length := List.length_take _ _
    have hmk : ((⟨text.data.take (max_len - 1)⟩ : String)).length
        = (text.data.take (max_len - 1)).length := rfl
    rw [hmk, this, hdata]
    omega
  · intro hshort
    simp only [truncate_subject, hstrip]
    rw [if_pos hshort]

/-- Witness for C8: a 100-character subject with `subject_max = 20` yields a
string of length exactly 20. -/
theorem truncate_subject_spec_witness :
    (truncate_subject (String.mk (List.replicate 100 'a')) 20).length = 20 :=
  ((truncate_subject_spec (String.mk (List.replicate 100 'a')) 20
    (by decide) (by decide)).1 (by decide)).2

/-- C10: for every shape of the `max_summary_length` argument, the effective
budget is within [200, 5000]; non-integers and missing values become 1000;
integers below 200 are raised to 200, integers above 5000 are lowered to
5000, and in-range integers are kept. -/
theorem effective_max_len_spec (arg : Option JsonArg) :
    200 ≤ effective_max_len arg ∧ effective_max_len arg ≤ 5000 ∧
    ((arg = none ∨ arg = some .jother) → effective_max_len arg = 1000) ∧
    (∀ n, arg = some (.jint n) →
      (n < 200 → effective_max_len arg = 200) ∧
      (5000 < n → effective_max_len arg = 5000) ∧
      (200 ≤ n → n ≤ 5000 → effective_max_len arg = n)) := by
  rcases arg with _ | a
  · refine ⟨by decide, by decide, fun _ => by decide, ?_⟩
    intro n hn
    cases hn
  · cases a with
    | jother =>
      refine ⟨by decide, by decide, fun _ => by decide, ?_⟩
      intro n hn
      cases hn
    | jint n =>
      have heval : effective_max_len (some (.jint n))
          = if (if n < 200 then 200 else n) > 5000 then 5000
            else (if n < 200 then 200 else n) := rfl
      refine ⟨?_, ?_, ?_, ?_⟩
      · rw [heval]; split_ifs <;> omega
      · rw [heval]; split_ifs <;> omega
      · rintro (h | h) <;> cases h
      · intro m hm
        have hnm : n = m := by
          injection hm with hm2
          injection hm2
        subst hnm
        refine ⟨?_, ?_, ?_⟩
        · intro h; rw [heval]; split_ifs <;> omega
        · intro h; rw [heval]; split_ifs <;> omega
        · intro h1 h2; rw [heval]; split_ifs <;> omega

/-- Witness for C10: 42 is clamped up to 200; a missing argument becomes
1000. -/
theorem effective_max_len_spec_witness :
    effective_max_len (some (.jint 42)) = 200 ∧ effective_max_len none = 1000 :=
  ⟨((effective_max_len_spec (some (.jint 42))).2.2.2 42 rfl).1 (by decide),
   (effective_max_len_spec none).2.2.1 (Or.inl rfl)⟩
